import Mathlib

/-!
Shallow embedding of the actix_scraper web-scraper core: the data model
(model.rs), the platform catalog (config.rs), the authentication engine
(login.rs), the extraction pipeline (scraper.rs) and the HTTP handler glue
(handlers.rs).  Browser-side effects (DOM visibility probes, typing,
clicking, page-side classification predicates) are modelled as oracle
inputs supplied per request; machine integers are Nat (no overflow is
reachable for the small constants involved).
-/

namespace ActixScraper

/-! ## String primitives (char-list based, executable) -/

/-- Boolean test that the first character list begins with the second one. -/
def listStarts : List Char → List Char → Bool
  | _, [] => true
  | [], _ :: _ => false
  | c :: cs, d :: ds => c = d && listStarts cs ds

/-- Boolean substring containment of the needle inside the haystack. -/
def listInfix (needle : List Char) : List Char → Bool
  | [] => listStarts [] needle
  | c :: rest => listStarts (c :: rest) needle || listInfix needle rest

/-- Rust str::contains, a substring containment test. -/
def strContains (hay needle : String) : Bool := listInfix needle.data hay.data

/-- Rust str::starts_with and JavaScript String.startsWith. -/
def strStartsWith (s pre : String) : Bool := listStarts s.data pre.data

/-- ASCII lowercasing of one character; models Rust to_lowercase on the
ASCII platform identifiers used by this program. -/
def charLower (c : Char) : Char :=
  if c.toNat ≥ 65 ∧ c.toNat ≤ 90 then Char.ofNat (c.toNat + 32) else c

/-- Rust str::to_lowercase restricted to ASCII. -/
def strLower (s : String) : String := ⟨s.data.map charLower⟩

/-- JavaScript String.substring(0, n). -/
def strTake (s : String) (n : Nat) : String := ⟨s.data.take n⟩

/-- JavaScript whitespace characters relevant here. -/
def isJsWs (c : Char) : Bool := c = ' ' || c = '\t' || c = '\n' || c = '\r'

/-- JavaScript String.trim on a character list. -/
def trimChars (l : List Char) : List Char :=
  ((l.dropWhile isJsWs).reverse.dropWhile isJsWs).reverse

/-- Worker for collapseWs; the flag records that we are inside a whitespace
run that has already been replaced by a single space. -/
def collapseGo : Bool → List Char → List Char
  | _, [] => []
  | skipping, c :: rest =>
    if isJsWs c then
      if skipping then collapseGo true rest
      else
        match rest with
        | c2 :: _ =>
          if isJsWs c2 then ' ' :: collapseGo true rest
          else c :: collapseGo false rest
        | [] => [c]
    else c :: collapseGo false rest

/-- JavaScript replace of every run of two or more whitespace characters by a
single space (the regex \s\s+ with the global flag); isolated whitespace
characters are kept unchanged. -/
def collapseWs (l : List Char) : List Char := collapseGo false l

/-! ## Data model (model.rs) -/

/-- CookieData record from model.rs. -/
structure CookieData where
  name : String
  value : String
  domain : String
  path : Option String
deriving DecidableEq

/-- LoginCredentials record from model.rs. -/
structure LoginCredentials where
  email : String
  password : String
  platform : Option String := none
  login_url : Option String := none
  email_selector : Option String := none
  password_selector : Option String := none
  submit_selector : Option String := none
  wait_after_login_secs : Option Nat := none
  cookies : Option (List CookieData) := none
deriving DecidableEq

/-- ImageData record from model.rs. -/
structure ImageData where
  src : String
  alt : String
deriving DecidableEq

/-- LinkData record from model.rs. -/
structure LinkData where
  href : String
  text : String
deriving DecidableEq

/-- ScrapeRequest record from model.rs. -/
structure ScrapeRequest where
  url : String
  login : Option LoginCredentials := none
deriving DecidableEq

/-- ScrapedData record from model.rs, produced by the scraper. -/
structure ScrapedData where
  title : Option String
  description : Option String
  text : Option String
  images : List ImageData
  links : List LinkData
  login_attempted : Bool
  login_success : Option Bool
  platform_detected : Option String
  requires_2fa : Option Bool
deriving DecidableEq

/-- ScrapeResponse record from model.rs, returned by the HTTP handler. -/
structure ScrapeResponse where
  title : Option String
  description : Option String
  url : String
  text : Option String
  images : List ImageData
  links : List LinkData
  success : Bool
  error : Option String
  login_attempted : Bool
  login_success : Option Bool
  platform_detected : Option String
  requires_2fa : Option Bool
deriving DecidableEq

/-! ## Platform catalog (config.rs) -/

/-- PlatformConfig record from config.rs. -/
structure PlatformConfig where
  login_url : String
  email_selectors : List String
  password_selectors : List String
  submit_selectors : List String
  wait_after_login : Nat
  additional_checks : Option (List String)
deriving DecidableEq

/-- Catalog entry for the linkedin arm of get_platform_config. -/
def linkedinConfig : PlatformConfig :=
  { login_url := "https://www.linkedin.com/login"
    email_selectors :=
      ["#username", "input[name=\x27session_key\x27]", "input[id=\x27username\x27]"]
    password_selectors :=
      ["#password", "input[name=\x27session_password\x27]", "input[id=\x27password\x27]"]
    submit_selectors :=
      ["button[type=\x27submit\x27]",
       "button[data-litms-control-urn*=\x27login-submit\x27]",
       ".login__form_action_container button"]
    wait_after_login := 8
    additional_checks := some [".global-nav__me", ".feed-identity-module"] }

/-- Catalog entry for the facebook arm of get_platform_config. -/
def facebookConfig : PlatformConfig :=
  { login_url := "https://www.facebook.com/login"
    email_selectors :=
      ["#email", "input[name=\x27email\x27]", "input[type=\x27text\x27][name=\x27email\x27]"]
    password_selectors :=
      ["#pass", "input[name=\x27pass\x27]", "input[type=\x27password\x27][name=\x27pass\x27]"]
    submit_selectors :=
      ["button[name=\x27login\x27]", "button[type=\x27submit\x27]", "#loginbutton"]
    wait_after_login := 6
    additional_checks := some ["[aria-label=\x27Your profile\x27]", "[data-pagelet=\x27LeftRail\x27]"] }

/-- Catalog entry for the twitter and x arm of get_platform_config. -/
def twitterConfig : PlatformConfig :=
  { login_url := "https://twitter.com/i/flow/login"
    email_selectors :=
      ["input[name=\x27text\x27]", "input[autocomplete=\x27username\x27]",
       "input[name=\x27session[username_or_email]\x27]"]
    password_selectors :=
      ["input[name=\x27password\x27]", "input[type=\x27password\x27]",
       "input[autocomplete=\x27current-password\x27]"]
    submit_selectors :=
      ["[role=\x27button\x27][data-testid*=\x27LoginForm_Login_Button\x27]",
       "button[type=\x27submit\x27]", "[data-testid=\x27LoginForm_Login_Button\x27]"]
    wait_after_login := 7
    additional_checks :=
      some ["[data-testid=\x27SideNav_AccountSwitcher_Button\x27]", "[aria-label=\x27Home timeline\x27]"] }

/-- Catalog entry for the github arm of get_platform_config. -/
def githubConfig : PlatformConfig :=
  { login_url := "https://github.com/login"
    email_selectors := ["#login_field", "input[name=\x27login\x27]"]
    password_selectors := ["#password", "input[name=\x27password\x27]"]
    submit_selectors :=
      ["input[type=\x27submit\x27][value=\x27Sign in\x27]", "input[name=\x27commit\x27]"]
    wait_after_login := 5
    additional_checks := some ["[aria-label=\x27Global navigation\x27]", ".Header-link--user"] }

/-- Catalog entry for the instagram arm of get_platform_config. -/
def instagramConfig : PlatformConfig :=
  { login_url := "https://www.instagram.com/accounts/login/"
    email_selectors :=
      ["input[name=\x27username\x27]",
       "input[aria-label=\x27Phone number, username, or email\x27]"]
    password_selectors := ["input[name=\x27password\x27]", "input[type=\x27password\x27]"]
    submit_selectors := ["button[type=\x27submit\x27]"]
    wait_after_login := 6
    additional_checks := some ["[aria-label=\x27Home\x27]", "svg[aria-label=\x27Home\x27]"] }

/-- Catalog entry for the reddit arm of get_platform_config. -/
def redditConfig : PlatformConfig :=
  { login_url := "https://www.reddit.com/login/"
    email_selectors := ["#loginUsername", "input[name=\x27username\x27]"]
    password_selectors := ["#loginPassword", "input[name=\x27password\x27]"]
    submit_selectors := ["button[type=\x27submit\x27]", ".AnimatedForm__submitButton"]
    wait_after_login := 5
    additional_checks := some ["[id*=\x27USER_DROPDOWN\x27]", "button[aria-label*=\x27User\x27]"] }

/-- Catalog fallback arm of get_platform_config for unknown platforms. -/
def genericConfig : PlatformConfig :=
  { login_url := ""
    email_selectors :=
      ["input[type=\x27email\x27]", "input[name=\x27email\x27]", "input[id=\x27email\x27]",
       "input[name=\x27username\x27]", "input[id=\x27username\x27]",
       "input[placeholder*=\x27email\x27 i]", "input[placeholder*=\x27username\x27 i]"]
    password_selectors :=
      ["input[type=\x27password\x27]", "input[name=\x27password\x27]", "input[id=\x27password\x27]"]
    submit_selectors := ["button[type=\x27submit\x27]", "input[type=\x27submit\x27]"]
    wait_after_login := 5
    additional_checks := none }

/-- Platform ids that have their own arm in the get_platform_config match. -/
def knownPlatformIds : List String :=
  ["linkedin", "facebook", "twitter", "x", "github", "instagram", "reddit"]

/-- Body of get_platform_config after lowercasing its argument. -/
def get_platform_config_lower (p : String) : PlatformConfig :=
  if p = "linkedin" then linkedinConfig
  else if p = "facebook" then facebookConfig
  else if p = "twitter" ∨ p = "x" then twitterConfig
  else if p = "github" then githubConfig
  else if p = "instagram" then instagramConfig
  else if p = "reddit" then redditConfig
  else genericConfig

/-- Function get_platform_config from config.rs: a case-insensitive lookup in
the static platform catalog. -/
def get_platform_config (platform : String) : PlatformConfig :=
  get_platform_config_lower (strLower platform)

/-! ## Login engine (login.rs) -/

/-- Function get_login_url from login.rs: the heuristic per-platform login URL,
with the target URL itself as the last resort. -/
def get_login_url (platform target_url : String) : String :=
  if platform = "google" then "https://accounts.google.com/signin"
  else if platform = "linkedin" then "https://www.linkedin.com/login"
  else if platform = "reddit" then "https://www.reddit.com/login/"
  else if platform = "github" then "https://github.com/login"
  else if platform = "facebook" then "https://www.facebook.com/login/"
  else if platform = "twitter" ∨ platform = "x" then "https://twitter.com/i/flow/login"
  else if platform = "instagram" then "https://www.instagram.com/accounts/login/"
  else if platform = "microsoft" then "https://login.live.com/"
  else target_url

/-- Platform detection from step 1 of auto_login: substring matches of fixed
domain fragments against the whole target URL string. -/
def detectPlatform (target_url : String) : String :=
  if strContains target_url "google.com" || strContains target_url "gmail.com" ||
     strContains target_url "accounts.google.com" then "google"
  else if strContains target_url "linkedin.com" then "linkedin"
  else if strContains target_url "reddit.com" then "reddit"
  else if strContains target_url "facebook.com" then "facebook"
  else if strContains target_url "twitter.com" || strContains target_url "x.com" then "twitter"
  else if strContains target_url "github.com" then "github"
  else if strContains target_url "instagram.com" then "instagram"
  else if strContains target_url "microsoft.com" || strContains target_url "login.live.com"
    then "microsoft"
  else "generic"

/-- Every domain fragment probed by detectPlatform, in probe order. -/
def platformUrlFragments : List String :=
  ["google.com", "gmail.com", "accounts.google.com", "linkedin.com", "reddit.com",
   "facebook.com", "twitter.com", "x.com", "github.com", "instagram.com",
   "microsoft.com", "login.live.com"]

/-- Resolved platform of a request: the explicit override if present, else
detection from the target URL (auto_login step 1). -/
def platformOf (credentials : LoginCredentials) (target_url : String) : String :=
  credentials.platform.getD (detectPlatform target_url)

/-- Login URL resolution from auto_login step 3: explicit override, else the
catalog URL when non-empty, else the heuristic per-platform URL. -/
def resolveLoginUrl (credentials : LoginCredentials) (config : PlatformConfig)
    (platform target_url : String) : String :=
  match credentials.login_url with
  | some s => s
  | none =>
    if config.login_url ≠ "" then config.login_url
    else get_login_url platform target_url

/-- Email selector chain from auto_login step 5: explicit override, else the
catalog list when non-empty, else inline per-platform fallbacks. -/
def emailSelectorsFor (credentials : LoginCredentials) (config : PlatformConfig)
    (platform : String) : List String :=
  match credentials.email_selector with
  | some sel => [sel]
  | none =>
    if config.email_selectors ≠ [] then config.email_selectors
    else if platform = "google" then
      ["#identifierId", "input[type=\"email\"]", "input[name=\"identifier\"]"]
    else if platform = "linkedin" then
      ["#username", "input[name=\"session_key\"]", "input[autocomplete=\"username\"]"]
    else if platform = "reddit" then
      ["#loginUsername", "input[name=\"username\"]", "input[placeholder*=\"Username\" i]"]
    else if platform = "github" then
      ["#login_field", "input[name=\"login\"]"]
    else
      ["input[type=\"email\"]", "input[name=\"email\"]", "input[autocomplete=\"email\"]"]

/-- Password selector chain from auto_login step 5. -/
def passwordSelectorsFor (credentials : LoginCredentials) (config : PlatformConfig)
    (platform : String) : List String :=
  match credentials.password_selector with
  | some sel => [sel]
  | none =>
    if config.password_selectors ≠ [] then config.password_selectors
    else if platform = "google" then
      ["input[type=\"password\"]", "input[name=\"Passwd\"]"]
    else if platform = "linkedin" then
      ["#password", "input[name=\"session_password\"]"]
    else if platform = "reddit" then
      ["#loginPassword", "input[name=\"password\"]", "input[placeholder*=\"Password\" i]"]
    else
      ["input[type=\"password\"]", "input[name=\"password\"]"]

/-- Submit selector chain from auto_login step 9. -/
def submitSelectorsFor (credentials : LoginCredentials) (config : PlatformConfig) : List String :=
  match credentials.submit_selector with
  | some sel => [sel]
  | none =>
    if config.submit_selectors ≠ [] then config.submit_selectors
    else
      ["button[type=\"submit\"]", "input[type=\"submit\"]", "button[id*=\"submit\" i]"]

/-- One pass over the selector list: the first selector whose element is
visible at this instant, per the inner loop of wait_for_any_element. -/
def findFirstVisible (vis : String → Bool) : List String → Option String
  | [] => none
  | s :: rest => if vis s then some s else findFirstVisible vis rest

/-- Fixed polling interval of wait_for_any_element, in milliseconds. -/
def checkIntervalMs : Nat := 200

/-- Polling loop of wait_for_any_element: the fuel is the number of loop
iterations left, the second Nat is the elapsed sleep time in milliseconds;
the result carries the elapsed time at the return point. -/
def waitTicks (visAt : Nat → String → Bool) (selectors : List String) :
    Nat → Nat → Option String × Nat
  | 0, elapsed => (none, elapsed)
  | fuel + 1, elapsed =>
    match findFirstVisible (fun s => visAt elapsed s) selectors with
    | some s => (some s, elapsed)
    | none => waitTicks visAt selectors fuel (elapsed + checkIntervalMs)

/-- Number of iterations of the while loop of wait_for_any_element: the loop
runs while elapsed < timeout and elapsed advances by the check interval. -/
def numTicks (timeout_ms : Nat) : Nat :=
  (timeout_ms + checkIntervalMs - 1) / checkIntervalMs

/-- Function wait_for_any_element from login.rs, with page-side visibility
supplied as an oracle indexed by elapsed milliseconds; returns the selector
found (None on timeout) together with the elapsed sleep time on return. -/
def wait_for_any_element (visAt : Nat → String → Bool) (selectors : List String)
    (timeout_ms : Nat) : Option String × Nat :=
  waitTicks visAt selectors (numTicks timeout_ms) 0

/-- Oracle for all page-side observations made by auto_login: visibility of
selectors per phase (indexed by elapsed poll time), typing and clicking
results, and the boolean results of the page-side classification scripts. -/
structure LoginDom where
  visEmail : Nat → String → Bool
  visPwProbe : Nat → String → Bool
  visPassword : Nat → String → Bool
  visSubmit : Nat → String → Bool
  visCheck : Nat → String → Bool
  typeOk : String → String → Bool
  clickOk : String → Bool
  nextProceeded : Bool
  promptDismissed : Bool
  requiresCaptcha : Bool
  requires2fa : Bool
  hasError : Bool
  successIndicators : Bool
  currentUrl : String

/-- Tagged login outcome: one tag per distinct return path of the final
checks of auto_login (step 12 of the source). -/
inductive Outcome where
  | captchaRequired
  | twoFactorRequired
  | credentialError
  | success
  | inconclusive
deriving DecidableEq

/-- Success method 1 of auto_login: probe each configured success indicator
selector for up to 3000 ms and succeed on the first hit. -/
def method1Success (dom : LoginDom) (config : PlatformConfig) : Bool :=
  match config.additional_checks with
  | none => false
  | some checks => checks.any fun c => (wait_for_any_element dom.visCheck [c] 3000).1.isSome

/-- Final classification of auto_login, in source order: captcha check first,
then two-factor, then credential error, then the two success methods,
otherwise inconclusive. -/
def classifyOutcome (dom : LoginDom) (config : PlatformConfig) : Outcome :=
  if dom.requiresCaptcha then Outcome.captchaRequired
  else if dom.requires2fa then Outcome.twoFactorRequired
  else if dom.hasError then Outcome.credentialError
  else if method1Success dom config || dom.successIndicators then Outcome.success
  else Outcome.inconclusive

/-- Return tuple of auto_login for each classification branch, exactly as the
source builds it: (login_success, Some(platform), Some(is_2fa)). -/
def outcomeTuple (platform : String) : Outcome → Bool × Option String × Option Bool
  | Outcome.captchaRequired => (false, some platform, some true)
  | Outcome.twoFactorRequired => (false, some platform, some true)
  | Outcome.credentialError => (false, some platform, some false)
  | Outcome.success => (true, some platform, some false)
  | Outcome.inconclusive => (false, some platform, some false)

/-- Already-at-target test used by auto_login before its final navigation:
the target URL contains the current URL as a substring. -/
def loginAtTarget (target_url current_url : String) : Bool :=
  strContains target_url current_url

/-- Function auto_login from login.rs.  The first component is the list of
URLs navigated to (stealth_navigate calls), in order; the second is the
result: Err for the fatal selector failures, otherwise the source tuple
(login_success, Some(platform), Some(is_2fa)).  Cookie injection
(set_cookies), banner dismissal, the multi-step advance and the submit
fallbacks perform no navigation and cannot fail, so they contribute no
branch to the result; the submit phase always ends with submitted = true
because the Enter-key fallback sets it unconditionally, which makes the
"Could not submit form" branch of the source unreachable. -/
def auto_login (credentials : LoginCredentials) (target_url : String) (dom : LoginDom) :
    List String × Except String (Bool × Option String × Option Bool) :=
  let platform := platformOf credentials target_url
  let config := get_platform_config platform
  let login_url := resolveLoginUrl credentials config platform target_url
  let nav := [login_url]
  let email_selectors := emailSelectorsFor credentials config platform
  let password_selectors := passwordSelectorsFor credentials config platform
  match (wait_for_any_element dom.visEmail email_selectors 20000).1 with
  | none => (nav, Except.error "Email field not found")
  | some email_sel =>
    if !(dom.typeOk email_sel credentials.email) then
      (nav, Except.error "Failed to enter email")
    else
      let is_multi_step :=
        ["google", "linkedin", "twitter", "x", "facebook", "microsoft"].contains platform
      let _password_probe :=
        is_multi_step && ((wait_for_any_element dom.visPwProbe password_selectors 2000).1.isSome
          || dom.nextProceeded)
      match (wait_for_any_element dom.visPassword password_selectors 20000).1 with
      | none => (nav, Except.error "Password field not found")
      | some pass_sel =>
        if !(dom.typeOk pass_sel credentials.password) then
          (nav, Except.error "Failed to enter password")
        else
          let submit_selectors := submitSelectorsFor credentials config
          let _submitted :=
            (match (wait_for_any_element dom.visSubmit submit_selectors 5000).1 with
              | some submit_sel => dom.clickOk submit_sel
              | none => false) || true
          let outcome := classifyOutcome dom config
          let navigatesToTarget :=
            outcome = Outcome.success ∧ dom.currentUrl ≠ "" ∧
              loginAtTarget target_url dom.currentUrl = false ∧ target_url ≠ login_url
          ((if navigatesToTarget then nav ++ [target_url] else nav),
            Except.ok (outcomeTuple platform outcome))

/-! ## Errors (errors.rs) -/

/-- ScrapeError enumeration from errors.rs. -/
inductive ScrapeError where
  | BrowserLaunch (e : String)
  | Navigation (e : String)
  | PageCreation (e : String)
  | EvaluationFailed (e : String)
  | LoginFailed (e : String)
  | TwoFactorAuthRequired
  | ContentExtraction (e : String)
deriving DecidableEq

/-- Display implementation for ScrapeError from errors.rs. -/
def errorMessage : ScrapeError → String
  | ScrapeError.BrowserLaunch e => "Failed to launch browser: " ++ e
  | ScrapeError.Navigation e => "Navigation failed: " ++ e
  | ScrapeError.PageCreation e => "Failed to create new page: " ++ e
  | ScrapeError.EvaluationFailed e => "JavaScript evaluation failed: " ++ e
  | ScrapeError.LoginFailed e => "Automatic login failed: " ++ e
  | ScrapeError.TwoFactorAuthRequired => "2FA is required, cannot proceed automatically"
  | ScrapeError.ContentExtraction e => "Failed to extract content: " ++ e

/-! ## Extraction pipeline (scraper.rs) -/

/-- Oracle for the page state seen by the extraction phase of Scraper::scrape:
the document fields read by the page-side extraction scripts, the current
URL before navigation, whether navigation to the target would succeed, and
whether a body element appears within the readiness probe. -/
structure ExtractPage where
  title : Option String
  description : Option String
  bodyText : String
  imgs : List ImageData
  anchors : List LinkData
  currentUrl : String
  navOk : Bool
  bodyPresent : Bool

/-- Source resolution step of the image extraction script: a non-empty src
that starts with neither http nor data: is resolved against the page URL
by the oracle resolveUrl (the page-side URL constructor). -/
def resolveImgSrc (resolveUrl : String → String) (img : ImageData) : ImageData :=
  if img.src ≠ "" ∧ strStartsWith img.src "http" = false ∧
      strStartsWith img.src "data:" = false then
    { img with src := resolveUrl img.src }
  else img

/-- Image extraction script of Scraper::scrape: resolve sources, keep only
http results, and slice to the first 20. -/
def extractImages (resolveUrl : String → String) (imgs : List ImageData) : List ImageData :=
  (((imgs.map (resolveImgSrc resolveUrl)).filter fun i => strStartsWith i.src "http").take 20)

/-- Link extraction script of Scraper::scrape: trim the visible text to 200
characters, keep only http hrefs, and slice to the first 50. -/
def extractLinks (anchors : List LinkData) : List LinkData :=
  (((anchors.map fun l => { href := l.href, text := strTake ⟨trimChars l.text.data⟩ 200 }).filter
    fun l => strStartsWith l.href "http").take 50)

/-- Body text extraction script of Scraper::scrape: collapse whitespace runs,
trim, and truncate to 100000 characters. -/
def extractText (bodyText : String) : String :=
  strTake ⟨trimChars (collapseWs bodyText.data)⟩ 100000

/-- Already-at-target test used by Scraper::scrape before its extraction
navigation: the current URL starts with the target URL. -/
def scraperAtTarget (target_url current_url : String) : Bool :=
  strStartsWith current_url target_url

/-- Function Scraper::scrape from scraper.rs.  Step 1 runs auto_login when
credentials are present: an Ok result whose third component is true
short-circuits with TwoFactorAuthRequired, an Err result degrades to an
unauthenticated attempt; step 2 navigates unless the current URL already
starts with the target; step 3 requires a body element; step 4 extracts.
Lazy scrolling and the evaluation glue cannot fail in this model. -/
def scrape (url : String) (login : Option LoginCredentials) (dom : LoginDom)
    (page : ExtractPage) (resolveUrl : String → String) : Except ScrapeError ScrapedData :=
  let loginStep : Except ScrapeError (Bool × Option Bool × Option String × Option Bool) :=
    match login with
    | some credentials =>
      match (auto_login credentials url dom).2 with
      | Except.ok (success, platform, tfa) =>
        if tfa.getD false then Except.error ScrapeError.TwoFactorAuthRequired
        else Except.ok (true, some success, platform, tfa)
      | Except.error _ => Except.ok (true, some false, none, none)
    | none => Except.ok (false, none, none, none)
  match loginStep with
  | Except.error e => Except.error e
  | Except.ok (login_attempted, login_success, platform_detected, requires_2fa) =>
    if scraperAtTarget url page.currentUrl = false ∧ page.navOk = false then
      Except.error (ScrapeError.Navigation "Failed to navigate")
    else if page.bodyPresent = false then
      Except.error (ScrapeError.ContentExtraction "Body element not found")
    else
      Except.ok
        { title := page.title
          description := page.description
          text := some (extractText page.bodyText)
          images := extractImages resolveUrl page.imgs
          links := extractLinks page.anchors
          login_attempted := login_attempted
          login_success := login_success
          platform_detected := platform_detected
          requires_2fa := requires_2fa }

/-! ## HTTP handler (handlers.rs) -/

/-- Handler scrape from handlers.rs: build the JSON response from the scrape
result; the error arm fills fixed defaults around the error message. -/
def handle_scrape (req : ScrapeRequest) (dom : LoginDom) (page : ExtractPage)
    (resolveUrl : String → String) : ScrapeResponse :=
  match scrape req.url req.login dom page resolveUrl with
  | Except.ok data =>
    { title := data.title
      description := data.description
      url := req.url
      text := data.text
      images := data.images
      links := data.links
      success := true
      error := none
      login_attempted := data.login_attempted
      login_success := data.login_success
      platform_detected := data.platform_detected
      requires_2fa := data.requires_2fa }
  | Except.error e =>
    { title := none
      description := none
      url := req.url
      text := none
      images := []
      links := []
      success := false
      error := some (errorMessage e)
      login_attempted := false
      login_success := none
      platform_detected := none
      requires_2fa := none }

/-! ## Lemmas about the visibility polling loop -/

/-- Selector s is the first visible one in list order: everything before it in
the selector list is invisible and s itself is visible. -/
def FirstVisibleInOrder (vis : String → Bool) (selectors : List String) (s : String) : Prop :=
  ∃ pre post, selectors = pre ++ s :: post ∧ vis s = true ∧ ∀ q ∈ pre, vis q = false

lemma findFirstVisible_eq_some {vis : String → Bool} :
    ∀ {l : List String} {s : String}, findFirstVisible vis l = some s →
      FirstVisibleInOrder vis l s := by
  intro l
  induction l with
  | nil => intro s h; simp [findFirstVisible] at h
  | cons a rest ih =>
    intro s h
    cases hva : vis a with
    | true =>
      simp [findFirstVisible, hva] at h
      exact ⟨[], rest, by simp [h], by rw [← h]; exact hva, by simp⟩
    | false =>
      simp [findFirstVisible, hva] at h
      obtain ⟨pre, post, hsplit, hvis, hpre⟩ := ih h
      refine ⟨a :: pre, post, by simp [hsplit], hvis, ?_⟩
      intro q hq
      rcases List.mem_cons.mp hq with rfl | hq2
      · exact hva
      · exact hpre q hq2

lemma findFirstVisible_eq_none {vis : String → Bool} :
    ∀ {l : List String}, (∀ s ∈ l, vis s = false) → findFirstVisible vis l = none := by
  intro l
  induction l with
  | nil => intro _; rfl
  | cons a rest ih =>
    intro h
    simp [findFirstVisible, h a (by simp)]
    exact ih fun s hs => h s (by simp [hs])

lemma waitTicks_all_invisible {visAt : Nat → String → Bool} {sels : List String}
    (h : ∀ t s, s ∈ sels → visAt t s = false) :
    ∀ fuel e, waitTicks visAt sels fuel e = (none, e + checkIntervalMs * fuel) := by
  intro fuel
  induction fuel with
  | zero => intro e; simp [waitTicks]
  | succ n ih =>
    intro e
    have hnone : findFirstVisible (fun s => visAt e s) sels = none :=
      findFirstVisible_eq_none fun s hs => h e s hs
    simp only [waitTicks, hnone]
    rw [ih (e + checkIntervalMs)]
    simp [Nat.mul_succ]
    omega

lemma waitTicks_some {visAt : Nat → String → Bool} {sels : List String} :
    ∀ {fuel e s t}, waitTicks visAt sels fuel e = (some s, t) →
      FirstVisibleInOrder (fun q => visAt t q) sels s ∧
        ∃ i, i < fuel ∧ t = e + checkIntervalMs * i := by
  intro fuel
  induction fuel with
  | zero => intro e s t h; simp [waitTicks] at h
  | succ n ih =>
    intro e s t h
    simp only [waitTicks] at h
    cases hf : findFirstVisible (fun q => visAt e q) sels with
    | some s0 =>
      rw [hf] at h
      simp at h
      obtain ⟨rfl, rfl⟩ := h
      exact ⟨findFirstVisible_eq_some hf, 0, by omega, by omega⟩
    | none =>
      rw [hf] at h
      obtain ⟨hfirst, i, hi, ht⟩ := ih h
      exact ⟨hfirst, i + 1, by omega, by rw [ht]; ring⟩

lemma numTicks_bounds (timeout_ms : Nat) :
    timeout_ms ≤ checkIntervalMs * numTicks timeout_ms ∧
      checkIntervalMs * numTicks timeout_ms < timeout_ms + checkIntervalMs := by
  unfold numTicks checkIntervalMs
  omega

/-- C5: wait_for_any_element returns the earliest selector in list order that
is visible among simultaneously matching candidates at the tick where it
returns (and only before the timeout), and with no match anywhere it
returns NotFound with a total waited time at least the configured timeout
and less than one polling interval beyond it. -/
theorem wait_for_any_element_spec (visAt : Nat → String → Bool) (selectors : List String)
    (timeout_ms : Nat) :
    (∀ s t, wait_for_any_element visAt selectors timeout_ms = (some s, t) →
        t < timeout_ms ∧ FirstVisibleInOrder (fun q => visAt t q) selectors s) ∧
    ((∀ t s, s ∈ selectors → visAt t s = false) →
        wait_for_any_element visAt selectors timeout_ms =
          (none, checkIntervalMs * numTicks timeout_ms) ∧
        timeout_ms ≤ checkIntervalMs * numTicks timeout_ms ∧
        checkIntervalMs * numTicks timeout_ms < timeout_ms + checkIntervalMs) := by
  constructor
  · intro s t h
    have h0 : waitTicks visAt selectors (numTicks timeout_ms) 0 = (some s, t) := h
    obtain ⟨hfirst, i, hi, ht⟩ := waitTicks_some h0
    refine ⟨?_, hfirst⟩
    have hb := numTicks_bounds timeout_ms
    revert hi ht hb
    unfold numTicks checkIntervalMs
    omega
  · intro h
    refine ⟨?_, (numTicks_bounds timeout_ms).1, (numTicks_bounds timeout_ms).2⟩
    unfold wait_for_any_element
    rw [waitTicks_all_invisible h (numTicks timeout_ms) 0]
    simp

/-- Witness for C5 at a concrete input: with no selector ever visible and a
timeout of 500 ms the probe returns NotFound after 600 ms of waiting. -/
theorem wait_for_any_element_spec_witness :
    wait_for_any_element (fun _ _ => false) ["#a", "#b"] 500 = (none, 600) ∧
      500 ≤ 600 ∧ 600 < 700 :=
  (wait_for_any_element_spec (fun _ _ => false) ["#a", "#b"] 500).2 fun _ _ _ => rfl

/-- C3: the final classification checks captcha markers before two-factor
markers, so a DOM state carrying both classifies as captcha, never as
two-factor. -/
theorem classify_captcha_before_2fa (dom : LoginDom) (config : PlatformConfig)
    (hc : dom.requiresCaptcha = true) (_h2 : dom.requires2fa = true) :
    classifyOutcome dom config = Outcome.captchaRequired ∧
      classifyOutcome dom config ≠ Outcome.twoFactorRequired := by
  refine ⟨by simp [classifyOutcome, hc], by simp [classifyOutcome, hc]⟩

/-- Dom state with both captcha and two-factor markers present. -/
def w3dom : LoginDom :=
  { visEmail := fun _ _ => true
    visPwProbe := fun _ _ => true
    visPassword := fun _ _ => true
    visSubmit := fun _ _ => true
    visCheck := fun _ _ => true
    typeOk := fun _ _ => true
    clickOk := fun _ => true
    nextProceeded := true
    promptDismissed := false
    requiresCaptcha := true
    requires2fa := true
    hasError := false
    successIndicators := false
    currentUrl := "https://example.com/login" }

/-- Witness for C3 at a concrete DOM state carrying both marker kinds. -/
theorem classify_captcha_before_2fa_witness :
    classifyOutcome w3dom genericConfig = Outcome.captchaRequired ∧
      classifyOutcome w3dom genericConfig ≠ Outcome.twoFactorRequired :=
  classify_captcha_before_2fa w3dom genericConfig rfl rfl

/-- C9: the two already-at-target checks test substring containment in
opposite directions and disagree on concrete URL pairs in both directions. -/
theorem target_url_checks_inconsistent :
    loginAtTarget "https://example.com/profile" "https://example.com/" = true ∧
    scraperAtTarget "https://example.com/profile" "https://example.com/" = false ∧
    loginAtTarget "https://example.com" "https://example.com/feed" = false ∧
    scraperAtTarget "https://example.com" "https://example.com/feed" = true := by
  decide

/-! ## Lemmas about auto_login -/

lemma auto_login_ok_eq {credentials : LoginCredentials} {target_url : String} {dom : LoginDom}
    {r : Bool × Option String × Option Bool}
    (h : (auto_login credentials target_url dom).2 = Except.ok r) :
    r = outcomeTuple (platformOf credentials target_url)
          (classifyOutcome dom (get_platform_config (platformOf credentials target_url))) := by
  simp only [auto_login] at h
  split at h
  · simp at h
  · split at h
    · simp at h
    · split at h
      · simp at h
      · split at h
        · simp at h
        · simp at h
          exact h.symm

lemma auto_login_trace (credentials : LoginCredentials) (target_url : String) (dom : LoginDom) :
    (auto_login credentials target_url dom).1 =
      [resolveLoginUrl credentials (get_platform_config (platformOf credentials target_url))
        (platformOf credentials target_url) target_url] ∨
    (auto_login credentials target_url dom).1 =
      [resolveLoginUrl credentials (get_platform_config (platformOf credentials target_url))
        (platformOf credentials target_url) target_url, target_url] := by
  simp only [auto_login]
  split
  · simp
  · split
    · simp
    · split
      · simp
      · split
        · simp
        · split
          · right; simp
          · left; simp

/-- C10: an Ok result of auto_login never pairs success with the 2FA/captcha
flag: a third component of Some(true) forces the success boolean false. -/
theorem auto_login_no_2fa_success (credentials : LoginCredentials) (target_url : String)
    (dom : LoginDom) (s : Bool) (p : Option String) (tfa : Option Bool)
    (h : (auto_login credentials target_url dom).2 = Except.ok (s, p, tfa))
    (h2 : tfa = some true) : s = false := by
  have hr := auto_login_ok_eq h
  subst h2
  cases hcl : classifyOutcome dom (get_platform_config (platformOf credentials target_url)) <;>
    rw [hcl] at hr <;> simp [outcomeTuple] at hr
  all_goals exact hr.1

/-- Credentials with an explicit platform override, used by witnesses. -/
def w10creds : LoginCredentials :=
  { email := "user@example.com"
    password := "hunter2"
    platform := some "github" }

/-- Dom state where every field is visible, typing succeeds, and a captcha
marker is present after submission. -/
def w10dom : LoginDom :=
  { visEmail := fun _ _ => true
    visPwProbe := fun _ _ => true
    visPassword := fun _ _ => true
    visSubmit := fun _ _ => true
    visCheck := fun _ _ => true
    typeOk := fun _ _ => true
    clickOk := fun _ => true
    nextProceeded := true
    promptDismissed := false
    requiresCaptcha := true
    requires2fa := false
    hasError := false
    successIndicators := false
    currentUrl := "https://github.com/session" }

/-- Witness for C10 at a concrete captcha-flagged login. -/
theorem auto_login_no_2fa_success_witness :
    (auto_login w10creds "https://github.com/settings" w10dom).2 =
      Except.ok (false, some "github", some true) ∧ false = false :=
  ⟨rfl, auto_login_no_2fa_success w10creds "https://github.com/settings" w10dom false
    (some "github") (some true) rfl rfl⟩

/-- C1 (amended): when credentials carry cookies the cookies are injected, but
no verification short-circuit exists — the flow still navigates to the
resolved login URL on every run. -/
theorem auto_login_with_cookies_visits_login_url (credentials : LoginCredentials)
    (target_url : String) (dom : LoginDom) (_h : credentials.cookies.isSome = true) :
    resolveLoginUrl credentials (get_platform_config (platformOf credentials target_url))
        (platformOf credentials target_url) target_url ∈
      (auto_login credentials target_url dom).1 := by
  rcases auto_login_trace credentials target_url dom with h1 | h1 <;> rw [h1] <;> simp

/-- Credentials carrying session cookies for a known platform. -/
def w1creds : LoginCredentials :=
  { email := "alice@example.com"
    password := "correct-horse"
    platform := some "github"
    cookies := some [{ name := "user_session", value := "abc123",
                       domain := ".github.com", path := some "/" }] }

/-- Target URL of the cookie-carrying request. -/
def w1target : String := "https://github.com/notifications"

/-- Dom state of a fully authenticated session: every success indicator holds
and no captcha, 2FA or error marker is present, so any post-navigation
cookie verification would succeed. -/
def w1dom : LoginDom :=
  { visEmail := fun _ _ => true
    visPwProbe := fun _ _ => true
    visPassword := fun _ _ => true
    visSubmit := fun _ _ => true
    visCheck := fun _ _ => true
    typeOk := fun _ _ => true
    clickOk := fun _ => true
    nextProceeded := true
    promptDismissed := false
    requiresCaptcha := false
    requires2fa := false
    hasError := false
    successIndicators := true
    currentUrl := "https://github.com/notifications" }

/-- Counterexample to C1 as stated: a request whose credentials carry cookies
and whose page state passes every verification indicator (the login result
is Authenticated) still navigates to the resolved login URL. -/
theorem cookie_auth_visits_login_url_cex :
    w1creds.cookies.isSome = true ∧
    (auto_login w1creds w1target w1dom).2 = Except.ok (true, some "github", some false) ∧
    "https://github.com/login" ∈ (auto_login w1creds w1target w1dom).1 := by
  refine ⟨rfl, rfl, ?_⟩
  have h : (auto_login w1creds w1target w1dom).1 = ["https://github.com/login"] := rfl
  rw [h]
  exact List.mem_singleton.mpr rfl

/-- Witness for the amended C1 at the concrete cookie-carrying request. -/
theorem auto_login_with_cookies_visits_login_url_witness :
    "https://github.com/login" ∈ (auto_login w1creds w1target w1dom).1 :=
  auto_login_with_cookies_visits_login_url w1creds w1target w1dom rfl

/-- C2: a login attempt classified as captcha or two-factor short-circuits the
scrape with the dedicated TwoFactorAuthRequired error, for every extraction
page state — content extraction is never performed. -/
theorem scrape_short_circuits_2fa_captcha (url : String) (credentials : LoginCredentials)
    (dom : LoginDom) (page : ExtractPage) (resolveUrl : String → String)
    (r : Bool × Option String × Option Bool)
    (hok : (auto_login credentials url dom).2 = Except.ok r)
    (hcls : classifyOutcome dom (get_platform_config (platformOf credentials url)) =
        Outcome.captchaRequired ∨
      classifyOutcome dom (get_platform_config (platformOf credentials url)) =
        Outcome.twoFactorRequired) :
    scrape url (some credentials) dom page resolveUrl =
      Except.error ScrapeError.TwoFactorAuthRequired := by
  have hr := auto_login_ok_eq hok
  obtain ⟨s, p, tfa⟩ := r
  have htfa : tfa = some true := by
    rcases hcls with hc | hc <;> rw [hc] at hr <;> simp [outcomeTuple] at hr <;> exact hr.2.2
  subst htfa
  simp [scrape, hok]

/-- Extraction page oracle used by witnesses. -/
def w2page : ExtractPage :=
  { title := some "GitHub"
    description := none
    bodyText := "hello world"
    imgs := []
    anchors := []
    currentUrl := "https://github.com/settings"
    navOk := true
    bodyPresent := true }

/-- Witness for C2 at a concrete captcha-flagged request. -/
theorem scrape_short_circuits_2fa_captcha_witness :
    scrape "https://github.com/settings" (some w10creds) w10dom w2page (fun s => s) =
      Except.error ScrapeError.TwoFactorAuthRequired :=
  scrape_short_circuits_2fa_captcha "https://github.com/settings" w10creds w10dom w2page
    (fun s => s) (false, some "github", some true) rfl (Or.inl rfl)

/-- Dom state where a one-time-code input is detected after submission. -/
def w4dom : LoginDom :=
  { visEmail := fun _ _ => true
    visPwProbe := fun _ _ => true
    visPassword := fun _ _ => true
    visSubmit := fun _ _ => true
    visCheck := fun _ _ => true
    typeOk := fun _ _ => true
    clickOk := fun _ => true
    nextProceeded := true
    promptDismissed := false
    requiresCaptcha := false
    requires2fa := true
    hasError := false
    successIndicators := false
    currentUrl := "https://github.com/sessions/two-factor" }

/-- Request with credentials whose login attempt ends in the 2FA error. -/
def w4req : ScrapeRequest :=
  { url := "https://github.com/settings", login := some w10creds }

/-- Counterexample to C4 as stated: this request attempts login, the attempt
detects a one-time-code prompt and the scrape fails with the dedicated 2FA
error, yet the HTTP response reports login_attempted = false and
requires_2fa = none. -/
theorem handler_error_loses_login_metadata_cex :
    w4req.login.isSome = true ∧
    scrape w4req.url w4req.login w4dom w2page (fun s => s) =
      Except.error ScrapeError.TwoFactorAuthRequired ∧
    (handle_scrape w4req w4dom w2page (fun s => s)).login_attempted = false ∧
    (handle_scrape w4req w4dom w2page (fun s => s)).requires_2fa = none ∧
    (handle_scrape w4req w4dom w2page (fun s => s)).success = false :=
  ⟨rfl, rfl, rfl, rfl, rfl⟩

/-- C4 (amended): the response carries the login metadata only on the success
path; on every error path (the 2FA error included) the handler reports
login_attempted = false and null login fields next to the error message. -/
theorem handle_scrape_metadata (req : ScrapeRequest) (dom : LoginDom) (page : ExtractPage)
    (resolveUrl : String → String) :
    (∀ data, scrape req.url req.login dom page resolveUrl = Except.ok data →
        (handle_scrape req dom page resolveUrl).login_attempted = data.login_attempted ∧
        (handle_scrape req dom page resolveUrl).login_success = data.login_success ∧
        (handle_scrape req dom page resolveUrl).platform_detected = data.platform_detected ∧
        (handle_scrape req dom page resolveUrl).requires_2fa = data.requires_2fa ∧
        (handle_scrape req dom page resolveUrl).success = true) ∧
    (∀ e, scrape req.url req.login dom page resolveUrl = Except.error e →
        (handle_scrape req dom page resolveUrl).login_attempted = false ∧
        (handle_scrape req dom page resolveUrl).login_success = none ∧
        (handle_scrape req dom page resolveUrl).platform_detected = none ∧
        (handle_scrape req dom page resolveUrl).requires_2fa = none ∧
        (handle_scrape req dom page resolveUrl).success = false ∧
        (handle_scrape req dom page resolveUrl).error = some (errorMessage e)) := by
  constructor
  · intro data h
    simp [handle_scrape, h]
  · intro e h
    simp [handle_scrape, h]

/-- Witness for the amended C4 at the concrete 2FA-failing request. -/
theorem handle_scrape_metadata_witness :
    (handle_scrape w4req w4dom w2page (fun s => s)).login_attempted = false ∧
    (handle_scrape w4req w4dom w2page (fun s => s)).login_success = none ∧
    (handle_scrape w4req w4dom w2page (fun s => s)).platform_detected = none ∧
    (handle_scrape w4req w4dom w2page (fun s => s)).requires_2fa = none ∧
    (handle_scrape w4req w4dom w2page (fun s => s)).success = false ∧
    (handle_scrape w4req w4dom w2page (fun s => s)).error =
      some (errorMessage ScrapeError.TwoFactorAuthRequired) :=
  (handle_scrape_metadata w4req w4dom w2page (fun s => s)).2
    ScrapeError.TwoFactorAuthRequired rfl

/-! ## Extraction caps (C6) -/

lemma strTake_length (s : String) (n : Nat) : (strTake s n).length ≤ n := by
  show (s.data.take n).length ≤ n
  rw [List.length_take]
  exact Nat.min_le_left _ _

/-- C6: at most 20 images (exactly 20 as soon as at least 20 candidates pass
the http filter, so a page of 500 valid images yields 20), at most 50
links each with text truncated to 200 characters, and body text truncated
to 100000 characters. -/
theorem extraction_caps (resolveUrl : String → String) (page : ExtractPage) :
    (extractImages resolveUrl page.imgs).length ≤ 20 ∧
    (20 ≤ ((page.imgs.map (resolveImgSrc resolveUrl)).filter
        fun i => strStartsWith i.src "http").length →
      (extractImages resolveUrl page.imgs).length = 20) ∧
    (extractLinks page.anchors).length ≤ 50 ∧
    (∀ l ∈ extractLinks page.anchors, l.text.length ≤ 200) ∧
    (extractText page.bodyText).length ≤ 100000 := by
  refine ⟨?_, ?_, ?_, ?_, ?_⟩
  · simp only [extractImages, List.length_take]
    exact Nat.min_le_left _ _
  · intro h
    simp only [extractImages, List.length_take]
    omega
  · simp only [extractLinks, List.length_take]
    exact Nat.min_le_left _ _
  · intro l hl
    have hl2 := List.mem_of_mem_take hl
    have hl3 := (List.mem_filter.mp hl2).1
    obtain ⟨a, _, rfl⟩ := List.mem_map.mp hl3
    exact strTake_length _ 200
  · exact strTake_length _ 100000

/-- Page with 500 images, all with an absolute http source. -/
def w6imgs : List ImageData :=
  List.replicate 500 { src := "http://img.example/a.png", alt := "pic" }

/-- Extraction page carrying the 500 images. -/
def w6page : ExtractPage :=
  { title := none
    description := none
    bodyText := ""
    imgs := w6imgs
    anchors := []
    currentUrl := ""
    navOk := true
    bodyPresent := true }

set_option maxRecDepth 4000 in
/-- Witness for C6: the page with 500 valid images yields exactly 20 entries. -/
theorem extraction_caps_witness :
    (extractImages (fun s => s) w6page.imgs).length = 20 :=
  (extraction_caps (fun s => s) w6page).2.1 (by decide)

/-! ## Platform catalog lookup (C7) -/

/-- C7: every platform id whose lowercasing is outside the catalog resolves to
the generic profile — non-empty email, password and submit selector lists,
an empty login URL and no success-indicator list — and the lookup is
case-insensitive: ids with equal lowercasings resolve identically. -/
theorem get_platform_config_generic_ci (p q : String) :
    (strLower p ∉ knownPlatformIds →
      get_platform_config p = genericConfig ∧
      genericConfig.email_selectors ≠ [] ∧
      genericConfig.password_selectors ≠ [] ∧
      genericConfig.submit_selectors ≠ [] ∧
      genericConfig.login_url = "" ∧
      genericConfig.additional_checks = none) ∧
    (strLower p = strLower q → get_platform_config p = get_platform_config q) := by
  constructor
  · intro h
    simp only [knownPlatformIds, List.mem_cons, List.not_mem_nil, or_false, not_or] at h
    obtain ⟨h1, h2, h3, h4, h5, h6, h7⟩ := h
    refine ⟨?_, by decide, by decide, by decide, by decide, by decide⟩
    simp [get_platform_config, get_platform_config_lower, h1, h2, h3, h4, h5, h6, h7]
  · intro h
    simp [get_platform_config, h]

/-- Witness for C7: a concrete unknown id resolves to the generic profile and
two casings of a known id resolve to the same profile. -/
theorem get_platform_config_generic_ci_witness :
    get_platform_config "MyUnknownSite" = genericConfig ∧
    get_platform_config "GitHub" = get_platform_config "gItHuB" :=
  ⟨((get_platform_config_generic_ci "MyUnknownSite" "MyUnknownSite").1 (by decide)).1,
    (get_platform_config_generic_ci "GitHub" "gItHuB").2 (by decide)⟩

/-! ## Platform detection (C8) -/

lemma detectPlatform_generic_of_no_fragment {url : String}
    (h : ∀ f ∈ platformUrlFragments, strContains url f = false) :
    detectPlatform url = "generic" := by
  have h1 := h "google.com" (by simp [platformUrlFragments])
  have h2 := h "gmail.com" (by simp [platformUrlFragments])
  have h3 := h "accounts.google.com" (by simp [platformUrlFragments])
  have h4 := h "linkedin.com" (by simp [platformUrlFragments])
  have h5 := h "reddit.com" (by simp [platformUrlFragments])
  have h6 := h "facebook.com" (by simp [platformUrlFragments])
  have h7 := h "twitter.com" (by simp [platformUrlFragments])
  have h8 := h "x.com" (by simp [platformUrlFragments])
  have h9 := h "github.com" (by simp [platformUrlFragments])
  have h10 := h "instagram.com" (by simp [platformUrlFragments])
  have h11 := h "microsoft.com" (by simp [platformUrlFragments])
  have h12 := h "login.live.com" (by simp [platformUrlFragments])
  simp [detectPlatform, h1, h2, h3, h4, h5, h6, h7, h8, h9, h10, h11, h12]

/-- C8 (amended): platform detection is driven by substring matches of the
fixed fragment list against the entire target URL string: a URL containing
no fragment anywhere detects as generic, and a non-generic detection means
some fragment occurs somewhere in the URL (path and query included). -/
theorem detect_platform_matches_whole_url :
    (∀ url, (∀ f ∈ platformUrlFragments, strContains url f = false) →
        detectPlatform url = "generic") ∧
    (∀ url, detectPlatform url ≠ "generic" →
        ∃ f ∈ platformUrlFragments, strContains url f = true) := by
  constructor
  · intro url h
    exact detectPlatform_generic_of_no_fragment h
  · intro url h
    by_contra hc
    push_neg at hc
    refine h (detectPlatform_generic_of_no_fragment ?_)
    intro f hf
    cases hb : strContains url f with
    | false => rfl
    | true => exact absurd hb (hc f hf)

/-- Witness for the amended C8 at a concrete fragment-free URL. -/
theorem detect_platform_matches_whole_url_witness :
    detectPlatform "https://plain.example/" = "generic" :=
  detect_platform_matches_whole_url.1 "https://plain.example/" (by decide)

/-- Modelled from the spec: the hostname component of a URL.  The spec derives
platform detection from substring matches against the target URL hostname;
the source contains no hostname extraction at all, so this definition
follows the words of the spec purely for comparison. -/
def specHostname (url : String) : String :=
  let rest : String :=
    if strStartsWith url "https://" then ⟨url.data.drop 8⟩
    else if strStartsWith url "http://" then ⟨url.data.drop 7⟩
    else url
  ⟨rest.data.takeWhile fun c => !(c = '/' || c = '?' || c = '#' || c = ':')⟩

/-- Counterexample to C8 as stated: two URLs with the same hostname detect
differently, because the detection substring match runs over the whole URL
and here picks a fragment out of the query string. -/
theorem detect_platform_hostname_cex :
    specHostname "https://example.org/" = specHostname "https://example.org/?q=github.com" ∧
    detectPlatform "https://example.org/" = "generic" ∧
    detectPlatform "https://example.org/?q=github.com" = "github" := by
  refine ⟨rfl, by decide, by decide⟩

end ActixScraper
